import Mathlib

/- Verification development for the blenderseed scene-export utilities
   (src/util.py) and object translators (src/translators/object.py).
   Host (Blender / bpy, mathutils) and renderer-binding (appleseed / asr)
   values are modelled explicitly; all repository functions are shallowly
   embedded as Lean definitions, with Python exceptions modelled by an
   explicit error type threaded through the state. -/

set_option linter.unusedVariables false

namespace Blenderseed

/- ------------------------------------------------------------------
   mathutils: 3-vectors and 4x4 matrices over the rationals.
   ------------------------------------------------------------------ -/

/-- A 3-component vector, modelling `mathutils.Vector` values such as
`particle.location` and `object.scale`. -/
structure Vec3 where
  x : ℚ
  y : ℚ
  z : ℚ
deriving DecidableEq

/-- Componentwise scaling of a vector by a scalar, modelling the Python
expression `vector * scalar` (as in `dupli_dict[particle][0].scale * size`). -/
def Vec3.smul (v : Vec3) (s : ℚ) : Vec3 := ⟨v.x * s, v.y * s, v.z * s⟩

/-- A 4x4 matrix, modelling `mathutils.Matrix`. -/
structure Mat4 where
  m00 : ℚ
  m01 : ℚ
  m02 : ℚ
  m03 : ℚ
  m10 : ℚ
  m11 : ℚ
  m12 : ℚ
  m13 : ℚ
  m20 : ℚ
  m21 : ℚ
  m22 : ℚ
  m23 : ℚ
  m30 : ℚ
  m31 : ℚ
  m32 : ℚ
  m33 : ℚ
deriving DecidableEq

/-- Row-by-column product of two 4x4 matrices, modelling `mathutils.Matrix`
multiplication (the Python `*` operator on matrices in Blender 2.7x). -/
def Mat4.mul (a b : Mat4) : Mat4 where
  m00 := a.m00 * b.m00 + a.m01 * b.m10 + a.m02 * b.m20 + a.m03 * b.m30
  m01 := a.m00 * b.m01 + a.m01 * b.m11 + a.m02 * b.m21 + a.m03 * b.m31
  m02 := a.m00 * b.m02 + a.m01 * b.m12 + a.m02 * b.m22 + a.m03 * b.m32
  m03 := a.m00 * b.m03 + a.m01 * b.m13 + a.m02 * b.m23 + a.m03 * b.m33
  m10 := a.m10 * b.m00 + a.m11 * b.m10 + a.m12 * b.m20 + a.m13 * b.m30
  m11 := a.m10 * b.m01 + a.m11 * b.m11 + a.m12 * b.m21 + a.m13 * b.m31
  m12 := a.m10 * b.m02 + a.m11 * b.m12 + a.m12 * b.m22 + a.m13 * b.m32
  m13 := a.m10 * b.m03 + a.m11 * b.m13 + a.m12 * b.m23 + a.m13 * b.m33
  m20 := a.m20 * b.m00 + a.m21 * b.m10 + a.m22 * b.m20 + a.m23 * b.m30
  m21 := a.m20 * b.m01 + a.m21 * b.m11 + a.m22 * b.m21 + a.m23 * b.m31
  m22 := a.m20 * b.m02 + a.m21 * b.m12 + a.m22 * b.m22 + a.m23 * b.m32
  m23 := a.m20 * b.m03 + a.m21 * b.m13 + a.m22 * b.m23 + a.m23 * b.m33
  m30 := a.m30 * b.m00 + a.m31 * b.m10 + a.m32 * b.m20 + a.m33 * b.m30
  m31 := a.m30 * b.m01 + a.m31 * b.m11 + a.m32 * b.m21 + a.m33 * b.m31
  m32 := a.m30 * b.m02 + a.m31 * b.m12 + a.m32 * b.m22 + a.m33 * b.m32
  m33 := a.m30 * b.m03 + a.m31 * b.m13 + a.m32 * b.m23 + a.m33 * b.m33

instance : Mul Mat4 := ⟨Mat4.mul⟩

/-- The translation matrix `mathutils.Matrix.Translation(t)`: the identity
with the translation vector in the fourth column. -/
def Mat4.Translation (t : Vec3) : Mat4 where
  m00 := 1
  m01 := 0
  m02 := 0
  m03 := t.x
  m10 := 0
  m11 := 1
  m12 := 0
  m13 := t.y
  m20 := 0
  m21 := 0
  m22 := 1
  m23 := t.z
  m30 := 0
  m31 := 0
  m32 := 0
  m33 := 1

/-- The scale matrix `mathutils.Matrix.Scale(factor, 4, axis)` for an already
normalised axis: the 3x3 block is `delta i j + (factor - 1) * axis i * axis j`,
embedded in a 4x4 homogeneous matrix.  The source only calls this with the
unit axes (1,0,0), (0,1,0) and (0,0,1), for which it is the corresponding
axis-aligned diagonal scale. -/
def Mat4.Scale (factor : ℚ) (axis : Vec3) : Mat4 where
  m00 := 1 + (factor - 1) * axis.x * axis.x
  m01 := (factor - 1) * axis.x * axis.y
  m02 := (factor - 1) * axis.x * axis.z
  m03 := 0
  m10 := (factor - 1) * axis.y * axis.x
  m11 := 1 + (factor - 1) * axis.y * axis.y
  m12 := (factor - 1) * axis.y * axis.z
  m13 := 0
  m20 := (factor - 1) * axis.z * axis.x
  m21 := (factor - 1) * axis.z * axis.y
  m22 := 1 + (factor - 1) * axis.z * axis.z
  m23 := 0
  m30 := 0
  m31 := 0
  m32 := 0
  m33 := 1

/- ------------------------------------------------------------------
   util.filter_params (src/util.py lines 242-247).
   ------------------------------------------------------------------ -/

/-- The loop of `filter_params`: walk the input, appending each element to
the accumulator `filter_list` only when it is not already present. -/
def filterParamsLoop {α : Type} [DecidableEq α] (filter_list : List α) : List α → List α
  | [] => filter_list
  | p :: ps =>
      if p ∈ filter_list then filterParamsLoop filter_list ps
      else filterParamsLoop (filter_list ++ [p]) ps

/-- `util.filter_params`: deduplicate a parameter list, starting from the
empty accumulator. -/
def filter_params {α : Type} [DecidableEq α] (params : List α) : List α :=
  filterParamsLoop [] params

/-- Spec-side reference function: remove duplicates from a list, keeping the
first occurrence of each element in input order. -/
def dedupKeepFirst {α : Type} [DecidableEq α] : List α → List α
  | [] => []
  | p :: ps => p :: dedupKeepFirst (ps.filter (fun q => q ≠ p))
termination_by l => l.length
decreasing_by
  simp only [List.length_cons]
  exact Nat.lt_succ_of_le (List.length_filter_le _ _)

/- ------------------------------------------------------------------
   util.calc_fov (src/util.py lines 297-308).
   ------------------------------------------------------------------ -/

/-- `math.degrees`: convert radians to degrees. -/
noncomputable def degrees (x : ℝ) : ℝ := x * 180 / Real.pi

/-- `util.calc_fov`: the camera angle in degrees, with the tangent-half-angle
correction (`length = 18 / tan(angle/2)`, then
`2 * atan(18 * width / height / length)`) applied only when the rendered
width is strictly less than the rendered height. -/
noncomputable def calc_fov (camera_angle_rad : ℝ) (width height : ℤ) : ℝ :=
  if width < height then
    degrees (2 * Real.arctan
      (18 * (width : ℝ) / (height : ℝ) / (18 / Real.tan (camera_angle_rad / 2))))
  else
    degrees camera_angle_rad

/- ------------------------------------------------------------------
   Host model: Blender objects, dupli-lists, particle systems, and the
   mutable scene state threaded through the enumeration functions.
   ------------------------------------------------------------------ -/

/-- A Blender object referenced from a dupli entry (`dupli.object`): the
embedded code only reads its per-axis scale. -/
structure BObject where
  scale : Vec3
deriving DecidableEq

/-- One entry of a host dupli-list: the instanced object and its matrix. -/
structure Dupli where
  object : BObject
  matrix : Mat4
deriving DecidableEq

/-- The `settings` argument of `dupli_list_create` (`'VIEWPORT'` default or
`'RENDER'`). -/
inductive DupliSettings
  | default
  | render
deriving DecidableEq

/-- `psys.settings.type`: `'EMITTER'`, or any other value (the source only
distinguishes emitters; the other arm is the hair/path case). -/
inductive PsysType
  | emitter
  | hair
deriving DecidableEq

/-- A particle slot of a particle system.  The slot identity is stable while
its attributes (`alive_state`, `size`, `location`) are functions of the
scene's current (frame, subframe) time, because `scene.frame_set`
re-evaluates the simulation state that the live particle references expose. -/
structure ParticleSlot where
  id : ℕ
  aliveAt : ℤ → ℚ → Bool
  sizeAt : ℤ → ℚ → ℚ
  locationAt : ℤ → ℚ → Vec3

/-- A particle system (`modifier.particle_system`), with the settings fields
read by the enumeration code. -/
structure ParticleSystem where
  ptype : PsysType
  render_type : String
  particles : List ParticleSlot

/-- A modifier on the host object: the embedded code only looks at
particle-system modifiers and their render visibility. -/
structure Modifier where
  mtype : String
  show_render : Bool
  particle_system : ParticleSystem

/-- `object.appleseed` per-object settings read by `ob_mblur_enabled`. -/
structure ObAppleseed where
  enable_motion_blur : Bool
  motion_blur_type : String
deriving DecidableEq

/-- `scene.appleseed` per-scene settings. -/
structure SceneAppleseed where
  enable_motion_blur : Bool
  enable_object_blur : Bool
  enable_deformation_blur : Bool
  shutter_open : ℚ
  shutter_close : ℚ
deriving DecidableEq

/-- The immutable part of the scene. -/
structure Scene where
  appleseed : SceneAppleseed
deriving DecidableEq

/-- The host (parent) object: its appleseed settings, whether it has a
`modifiers` attribute at all (`hasattr(ob, 'modifiers')`), its modifier
stack, and the dupli-list generator — `dupli_list_create(scene, settings)`
evaluated while the scene sits at (frame, subframe) populates the object's
dupli-list with `dupli_gen settings frame subframe`. -/
structure HostObject where
  appleseed : ObAppleseed
  has_modifiers : Bool
  modifiers : List Modifier
  dupli_gen : DupliSettings → ℤ → ℚ → List Dupli

/-- One host call recorded in the interaction trace. -/
inductive Event
  | frameSetEvt (frame : ℤ) (subframe : ℚ)
  | dupliCreate (settings : DupliSettings) (frame : ℤ) (subframe : ℚ)
  | dupliClear
deriving DecidableEq

/-- The mutable host state threaded through the embedded functions: the
scene's current frame and subframe, the parent object's current dupli-list
(empty when cleared), and the trace of host calls made so far. -/
structure World where
  frame_current : ℤ
  frame_subframe : ℚ
  dupli_list : List Dupli
  trace : List Event
deriving DecidableEq

/-- `scene.frame_set(frame, subframe=...)`; calls written without the
keyword argument pass the Python default `subframe=0.0`. -/
def frameSet (w : World) (frame : ℤ) (subframe : ℚ) : World :=
  { w with
      frame_current := frame
      frame_subframe := subframe
      trace := w.trace ++ [Event.frameSetEvt frame subframe] }

/-- `ob.dupli_list_create(scene, settings)`: populate the object's dupli-list
from the generator at the current scene time. -/
def dupliListCreate (ob : HostObject) (s : DupliSettings) (w : World) : World :=
  { w with
      dupli_list := ob.dupli_gen s w.frame_current w.frame_subframe
      trace := w.trace ++ [Event.dupliCreate s w.frame_current w.frame_subframe] }

/-- `ob.dupli_list_clear()`. -/
def dupliListClear (w : World) : World :=
  { w with dupli_list := [], trace := w.trace ++ [Event.dupliClear] }

/-- Python exceptions raised by the embedded code. -/
inductive PyErr
  | indexError
  | typeError
  | attributeError
deriving DecidableEq

/-- `util.ob_mblur_enabled` (src/util.py lines 319-320). -/
def ob_mblur_enabled (ob : HostObject) (scene : Scene) : Bool :=
  ob.appleseed.enable_motion_blur
    && (ob.appleseed.motion_blur_type == "object")
    && scene.appleseed.enable_motion_blur
    && scene.appleseed.enable_object_blur

/- ------------------------------------------------------------------
   util.get_instances / util.sample_mblur (src/util.py lines 348-393).
   ------------------------------------------------------------------ -/

/-- The second component of a `get_instances` record: a single bare matrix
on the static path, or the list of sampled matrices on the motion-blur path
(the Python lists are heterogeneous between the two shapes). -/
inductive InstMats
  | one (m : Mat4)
  | many (ms : List Mat4)
deriving DecidableEq

/-- The shutter-close pass of `sample_mblur`:
`for m in range(0, len(ob.dupli_list)): matrices[m][1].append(...)`.
The records and the close-time dupli-list are walked in lockstep; when the
close-time list is longer, the subscript `matrices[m]` raises IndexError. -/
def mblurAppendClose :
    List (BObject × List Mat4) → List Dupli → Except PyErr (List (BObject × List Mat4))
  | ms, [] => .ok ms
  | [], _ :: _ => .error .indexError
  | (obj, mats) :: ms, d :: ds =>
      match mblurAppendClose ms ds with
      | .ok rest => .ok ((obj, mats ++ [d.matrix]) :: rest)
      | .error e => .error e

/-- `util.sample_mblur` (only ever called with `dupli=True`; the unused
`dupli` keyword is omitted): collect `[dupli.object, [matrix]]` records at
the shutter-open subframe, append each close-time matrix, clear the host
list and reset the timeline.  Returns the records (or the escaped Python
exception) together with the host state at that point. -/
def sample_mblur (ob : HostObject) (scene : Scene) (w : World) :
    Except PyErr (List (BObject × List Mat4)) × World :=
  let frame_orig := w.frame_current
  let asr_scn := scene.appleseed
  let w1 := frameSet w frame_orig asr_scn.shutter_open
  let w2 := dupliListCreate ob .default w1
  let matrices := w2.dupli_list.map (fun dupli => (dupli.object, [dupli.matrix]))
  let w3 := dupliListClear w2
  let w4 := frameSet w3 frame_orig asr_scn.shutter_close
  let w5 := dupliListCreate ob .default w4
  match mblurAppendClose matrices w5.dupli_list with
  | .error e => (.error e, w5)
  | .ok matrices2 =>
      let w6 := dupliListClear w5
      let w7 := frameSet w6 frame_orig 0
      (.ok matrices2, w7)

/-- `util.get_instances`: the instanced objects on a parent object
(dupli-faces / dupli-verts), as `[dupli.object, matrix]` pairs on the static
path and `[dupli.object, [matrices]]` records on the motion-blur path. -/
def get_instances (obj_parent : HostObject) (scene : Scene) (w : World) :
    Except PyErr (List (BObject × InstMats)) × World :=
  if ob_mblur_enabled obj_parent scene then
    match sample_mblur obj_parent scene w with
    | (.ok ms, w') => (.ok (ms.map (fun r => (r.1, InstMats.many r.2))), w')
    | (.error e, w') => (.error e, w')
  else
    let w1 := dupliListCreate obj_parent .default w
    let dupli_list := w1.dupli_list.map (fun dupli => (dupli.object, InstMats.one dupli.matrix))
    let w2 := dupliListClear w1
    (.ok dupli_list, w2)

/- ------------------------------------------------------------------
   util.get_psys_instances / util.sample_psys_mblur
   (src/util.py lines 451-584).
   ------------------------------------------------------------------ -/

/-- An entry of a particle dictionary, `particle: [dupli.object, [matrices]]`.
Dictionary identity is the particle slot id (Python keys the dictionaries by
the live particle references, which are pairwise distinct). -/
abbrev DictEntry := ParticleSlot × BObject × List Mat4

/-- Python dictionary insertion `d[k] = v` for particle dictionaries: an
existing key is overwritten in place, a new key is appended, preserving
insertion order. -/
def dictSet (d : List DictEntry) (k : ParticleSlot) (v : BObject × List Mat4) :
    List DictEntry :=
  if d.any (fun e => e.1.id == k.id) then
    d.map (fun e => if e.1.id == k.id then (k, v) else e)
  else d ++ [(k, v)]

/-- A dict comprehension `{p[0]: value for p in pairs}`. -/
def dictOfPairs (pairs : List DictEntry) : List DictEntry :=
  pairs.foldl (fun d p => dictSet d p.1 p.2) []

/-- Python `dict.update`: merge the right dictionary into the left. -/
def dictUpdate (base d : List DictEntry) : List DictEntry :=
  d.foldl (fun b e => dictSet b e.1 e.2) base

/-- The particles considered by the enumeration at a given time: emitter
systems keep only the particles whose `alive_state` is `'ALIVE'`, other
systems keep all particles. -/
def collectParticles (psys : ParticleSystem) (frame : ℤ) (subframe : ℚ) :
    List ParticleSlot :=
  match psys.ptype with
  | .emitter => psys.particles.filter (fun p => p.aliveAt frame subframe)
  | .hair => psys.particles

/-- `duplis.append(ob.dupli_list[dupli_index].object)` for `dupli_index` in
`range(start, current_total)`: IndexError as soon as an index runs off the
dupli-list, the slice of instanced objects otherwise. -/
def sliceObjects (dl : List Dupli) (start current_total : ℕ) :
    Except PyErr (List BObject) :=
  if start < current_total ∧ dl.length < current_total then .error .indexError
  else .ok (((dl.drop start).take (current_total - start)).map (fun d => d.object))

/-- The emitter-particle instance matrix computed by `get_psys_instances`
and `sample_psys_mblur`: translate by the particle location and scale each
axis by the instanced object's scale times the particle size
(`mat = transl * scale`). -/
def emitterParticleMatrix (loc : Vec3) (obScale : Vec3) (size : ℚ) : Mat4 :=
  let scale := obScale.smul size
  Mat4.Translation loc *
    (Mat4.Scale scale.x ⟨1, 0, 0⟩ * Mat4.Scale scale.y ⟨0, 1, 0⟩ *
      Mat4.Scale scale.z ⟨0, 0, 1⟩)

/-- The static emitter branch of `get_psys_instances` (lines 487-499): pair
particles with their duplis, build the dictionary with empty matrix lists,
then append the emitter matrix for each particle at the current time. -/
def staticEmitterDict (particles : List ParticleSlot) (duplis : List BObject)
    (frame : ℤ) (subframe : ℚ) : List DictEntry :=
  let p_duplis_pairs := particles.zip duplis
  let dupli_dict := dictOfPairs (p_duplis_pairs.map (fun p => (p.1, p.2, ([] : List Mat4))))
  dupli_dict.map (fun e =>
    let size := e.1.sizeAt frame subframe
    let loc := e.1.locationAt frame subframe
    (e.1, e.2.1, e.2.2 ++ [emitterParticleMatrix loc e.2.1.scale size]))

/-- The static hair branch of `get_psys_instances` (lines 500-503): zip the
particles with the sliced instanced objects and with the matrices of the
whole dupli-list, storing each matrix as a one-element list. -/
def staticHairDict (particles : List ParticleSlot) (duplis : List BObject)
    (dupli_mat_list : List Mat4) : List DictEntry :=
  let p_duplis_pairs := (particles.zip duplis).zip dupli_mat_list
  dictOfPairs (p_duplis_pairs.map (fun p => (p.1.1, p.1.2, [p.2])))

/-- The Python set literal `{asr_scn.shutter_open, asr_scn.shutter_close}`
iterated by the motion-blur passes of `sample_psys_mblur`: a one-element
collection when the two subframes coincide.  (The iteration order of a
two-element float set is hash-dependent in Python; the embedding fixes the
order open-then-close.) -/
def shutterFrames (shutter_open shutter_close : ℚ) : List ℚ :=
  if shutter_open = shutter_close then [shutter_open] else [shutter_open, shutter_close]

/-- One shutter pass of the emitter motion-blur branch (lines 543-556):
append, for every dictionary entry in order, the emitter matrix evaluated at
the pass subframe. -/
def mblurEmitterPass (d : List DictEntry) (frame : ℤ) (subframe : ℚ) :
    List DictEntry :=
  d.map (fun e =>
    (e.1, e.2.1,
      e.2.2 ++ [emitterParticleMatrix (e.1.locationAt frame subframe) e.2.1.scale
        (e.1.sizeAt frame subframe)]))

/-- The `for frame in {shutter_open, shutter_close}` loop of the emitter
branch: set the subframe, then run the pass. -/
def mblurEmitterFrames (frame_orig : ℤ) :
    List ℚ → List DictEntry → World → List DictEntry × World
  | [], d, w => (d, w)
  | f :: fs, d, w =>
      let w1 := frameSet w frame_orig f
      mblurEmitterFrames frame_orig fs (mblurEmitterPass d frame_orig f) w1

/-- One shutter pass of the hair motion-blur branch (lines 572-575): walk
the dictionary entries in order, appending `ob.dupli_list[new_index].matrix`
and stepping the running index; IndexError when the index runs off the
freshly created dupli-list. -/
def mblurHairPass (dl : List Dupli) :
    List DictEntry → ℕ → Except PyErr (List DictEntry)
  | [], _ => .ok []
  | e :: es, idx =>
      match dl[idx]? with
      | none => .error .indexError
      | some dupli =>
          match mblurHairPass dl es (idx + 1) with
          | .ok rest => .ok ((e.1, e.2.1, e.2.2 ++ [dupli.matrix]) :: rest)
          | .error err => .error err

/-- The `for frame in {shutter_open, shutter_close}` loop of the hair branch
(lines 568-576): per pass, set the subframe, recreate the dupli-list, run
the indexing pass (restarting the index at `index`), and clear the list. -/
def mblurHairFrames (ob : HostObject) (frame_orig : ℤ) (index : ℕ) :
    List ℚ → List DictEntry → World → Except PyErr (List DictEntry) × World
  | [], d, w => (.ok d, w)
  | f :: fs, d, w =>
      let w1 := frameSet w frame_orig f
      let w2 := dupliListCreate ob .render w1
      match mblurHairPass w2.dupli_list d index with
      | .error e => (.error e, w2)
      | .ok d' =>
          let w3 := dupliListClear w2
          mblurHairFrames ob frame_orig index fs d' w3

/-- The value returned by `sample_psys_mblur`: either the bare Python value
`False` (empty particle list at shutter open) or the `(dupli_dict, index)`
pair. -/
inductive PsysSample
  | falseValue
  | pair (dupli_dict : List DictEntry) (index : ℕ)

/-- `util.sample_psys_mblur` (lines 517-584).  The `del scale, transl, mat`
cleanup of the emitter branch unbinds locals and leaves no observable state,
so it has no counterpart here.  After both shutter passes the running index
`new_index` equals `index` plus the number of dictionary keys, and the
source then performs `index += new_index`. -/
def sample_psys_mblur (ob : HostObject) (scene : Scene) (psys : ParticleSystem)
    (index start current_total : ℕ) (w : World) : Except PyErr PsysSample × World :=
  let asr_scn := scene.appleseed
  let frame_orig := w.frame_current
  let w1 := frameSet w frame_orig asr_scn.shutter_open
  let particles := collectParticles psys frame_orig asr_scn.shutter_open
  if particles.length = 0 then (.ok .falseValue, w1)
  else
    match psys.ptype with
    | .emitter =>
        let w2 := dupliListCreate ob .render w1
        let duplis := w2.dupli_list.map (fun dupli => dupli.object)
        let p_duplis_pairs := particles.zip duplis
        let dupli_dict := dictOfPairs (p_duplis_pairs.map (fun p => (p.1, p.2, ([] : List Mat4))))
        let frames := shutterFrames asr_scn.shutter_open asr_scn.shutter_close
        let res := mblurEmitterFrames frame_orig frames dupli_dict w2
        let index2 := index + (index + res.1.length)
        let w4 := dupliListClear res.2
        let w5 := frameSet w4 frame_orig 0
        (.ok (.pair res.1 index2), w5)
    | .hair =>
        let w2 := dupliListCreate ob .render w1
        match sliceObjects w2.dupli_list start current_total with
        | .error e => (.error e, w2)
        | .ok duplis =>
            let p_duplis_pairs := particles.zip duplis
            let dupli_dict := dictOfPairs (p_duplis_pairs.map (fun p => (p.1, p.2, ([] : List Mat4))))
            let w3 := dupliListClear w2
            let frames := shutterFrames asr_scn.shutter_open asr_scn.shutter_close
            match mblurHairFrames ob frame_orig index frames dupli_dict w3 with
            | (.error e, w4) => (.error e, w4)
            | (.ok d2, w4) =>
                let index2 := index + (index + d2.length)
                let w5 := frameSet w4 frame_orig 0
                (.ok (.pair d2 index2), w5)

/-- The modifier loop of `get_psys_instances` (lines 466-509), threading the
accumulated dictionary and the `current_total` / `index` counters. -/
def processModifiers (ob : HostObject) (scene : Scene) :
    List Modifier → List DictEntry → ℕ → ℕ → World →
      Except PyErr (List DictEntry) × World
  | [], all_duplis, _, _, w => (.ok all_duplis, w)
  | m :: ms, all_duplis, current_total, index, w =>
      if m.mtype == "PARTICLE_SYSTEM" && m.show_render then
        let psys := m.particle_system
        if psys.render_type == "OBJECT" || psys.render_type == "GROUP" then
          let particles := collectParticles psys w.frame_current w.frame_subframe
          let start := current_total
          let new_total := current_total + particles.length
          if ob_mblur_enabled ob scene then
            match sample_psys_mblur ob scene psys index start new_total w with
            | (.error e, w') => (.error e, w')
            | (.ok .falseValue, w') => (.error .typeError, w')
            | (.ok (.pair d idx), w') =>
                processModifiers ob scene ms (dictUpdate all_duplis d) new_total idx w'
          else
            match sliceObjects w.dupli_list start new_total with
            | .error e => (.error e, w)
            | .ok duplis =>
                let d :=
                  match psys.ptype with
                  | .emitter =>
                      staticEmitterDict particles duplis w.frame_current w.frame_subframe
                  | .hair =>
                      staticHairDict particles duplis
                        (w.dupli_list.map (fun dupli => dupli.matrix))
                processModifiers ob scene ms (dictUpdate all_duplis d) new_total index w
        else processModifiers ob scene ms all_duplis current_total index w
      else processModifiers ob scene ms all_duplis current_total index w

/-- `util.get_psys_instances` (lines 451-514): returns the merged
`particle: [dupli.object, [matrices]]` dictionary over all rendered
particle-system modifiers, creating (and finally clearing) the host
dupli-list once on the static path.  Unpacking the bare `False` returned by
`sample_psys_mblur` for an empty particle list raises TypeError at the
assignment `dupli_dict, index = sample_psys_mblur(...)`. -/
def get_psys_instances (ob : HostObject) (scene : Scene) (w : World) :
    Except PyErr (List DictEntry) × World :=
  if !ob.has_modifiers then (.ok [], w)
  else
    let w1 := if ob_mblur_enabled ob scene then w else dupliListCreate ob .render w
    match processModifiers ob scene ob.modifiers [] 0 0 w1 with
    | (.error e, w') => (.error e, w')
    | (.ok all_duplis, w') =>
        let w2 := if ob_mblur_enabled ob scene then w' else dupliListClear w'
        (.ok all_duplis, w2)

/- ------------------------------------------------------------------
   translators/object.py: ObjectTranslator, InstanceTranslator,
   ArchiveTranslator.  The appleseed binding entities (asr.TransformSequence,
   asr.AssemblyInstance, assemblies) and the Translator base class
   (translators/translator.py) are not under src/ and are modelled from the
   spec where noted.
   ------------------------------------------------------------------ -/

/-- Modelled from the spec: `asr.TransformSequence` of the appleseed binding
(not part of this repository) is an "ordered set of (time, 4x4 matrix)
samples"; `set_transform` overwrites the sample stored at an existing time
and otherwise appends a new one. -/
structure TransformSequence where
  samples : List (ℚ × Mat4)
deriving DecidableEq

/-- `TransformSequence.set_transform(time, matrix)`. -/
def TransformSequence.set_transform (s : TransformSequence) (time : ℚ) (m : Mat4) :
    TransformSequence :=
  if s.samples.any (fun p => p.1 == time) then
    ⟨s.samples.map (fun p => if p.1 == time then (time, m) else p)⟩
  else ⟨s.samples ++ [(time, m)]⟩

/-- Modelled from the spec: `TransformSequence.optimize` of the appleseed
binding collapses the sequence to a single static sample when all samples
carry the same matrix. -/
def TransformSequence.optimize (s : TransformSequence) : TransformSequence :=
  match s.samples with
  | [] => s
  | p :: ps => if ps.all (fun q => q.2 == p.2) then ⟨[p]⟩ else s

/-- The host object seen by a translator: only `matrix_world` is read. -/
structure BlObj where
  matrix_world : Mat4
deriving DecidableEq

/-- A renderer assembly instance (`asr.AssemblyInstance`). -/
structure AssemblyInstance where
  name : String
  master_assembly : String
  xform_seq : TransformSequence
deriving DecidableEq

/-- The target assembly's collection of assembly instances
(`assembly.assembly_instances()`), keyed by name, insertion-ordered. -/
structure Assembly where
  assembly_instances : List AssemblyInstance
deriving DecidableEq

/-- `assembly.assembly_instances().insert(...)`. -/
def Assembly.insertInstance (a : Assembly) (inst : AssemblyInstance) : Assembly :=
  ⟨a.assembly_instances ++ [inst]⟩

/-- Writing `set_transform` through a handle obtained with `get_by_name`:
update the transform sequence of the named instance inside the assembly. -/
def Assembly.setInstanceTransform (a : Assembly) (n : String) (time : ℚ) (m : Mat4) :
    Assembly :=
  ⟨a.assembly_instances.map (fun i =>
    if i.name == n then { i with xform_seq := i.xform_seq.set_transform time m } else i)⟩

/-- `ObjectTranslator` state (`__init__`, lines 44-48): the host object
reference, the transform sequence, and the instance count.  The base-class
pieces (`Translator.__init__`, `appleseed_name`, `_convert_matrix`) live in
translators/translator.py, which is not under src/; the matrix conversion is
therefore modelled from the spec as an unspecified conversion function
passed as the `convert` parameter, and `appleseed_name` as a stored name. -/
structure ObjectTranslator where
  bl_obj : BlObj
  xform_seq : TransformSequence
  num_instances : ℕ
deriving DecidableEq

/-- A fresh `ObjectTranslator`: empty transform sequence, instance count 1. -/
def ObjectTranslator.init (obj : BlObj) : ObjectTranslator :=
  { bl_obj := obj, xform_seq := ⟨[]⟩, num_instances := 1 }

/-- `ObjectTranslator.add_instance` (lines 65-66). -/
def ObjectTranslator.add_instance (t : ObjectTranslator) : ObjectTranslator :=
  { t with num_instances := t.num_instances + 1 }

/-- `ObjectTranslator.set_transform_key(time, key_times)` (lines 73-74):
store the host object's current world matrix, converted, at the given time.
`key_times` is never read by the source; the function takes no scene or
renderer state and returns only the updated translator. -/
def ObjectTranslator.set_transform_key (convert : Mat4 → Mat4) (t : ObjectTranslator)
    (time : ℚ) (key_times : List ℚ) : ObjectTranslator :=
  { t with xform_seq := t.xform_seq.set_transform time (convert t.bl_obj.matrix_world) }

/-- `InstanceTranslator` state: the inherited `ObjectTranslator`, the master
translator's assembly name, the translator's own `appleseed_name`, and the
private `__ass_inst` handle.  The handle names the assembly instance fetched
back with `get_by_name` after insertion; before `flush_entities` assigns it
the attribute does not exist (`none`), and a Python read of a missing
attribute raises AttributeError. -/
structure InstanceTranslator where
  base : ObjectTranslator
  master_assembly_name : String
  appleseed_name : String
  ass_inst : Option String
deriving DecidableEq

/-- A fresh `InstanceTranslator` (`__init__`, lines 82-84). -/
def InstanceTranslator.init (obj : BlObj) (master_assembly_name appleseed_name : String) :
    InstanceTranslator :=
  { base := ObjectTranslator.init obj
    master_assembly_name := master_assembly_name
    appleseed_name := appleseed_name
    ass_inst := none }

/-- `InstanceTranslator.create_entities` (lines 90-91). -/
def InstanceTranslator.create_entities (convert : Mat4 → Mat4) (t : InstanceTranslator) :
    InstanceTranslator :=
  { t with base :=
      { t.base with xform_seq :=
          t.base.xform_seq.set_transform 0 (convert t.base.bl_obj.matrix_world) } }

/-- `InstanceTranslator.flush_entities(assembly)` (lines 97-112): optimize
the sequence in place, build the assembly instance pointing at the master's
assembly, insert it, and store the re-fetched handle. -/
def InstanceTranslator.flush_entities (t : InstanceTranslator) (assembly : Assembly) :
    InstanceTranslator × Assembly :=
  let seq := t.base.xform_seq.optimize
  let assembly_instance_name := t.appleseed_name ++ "_ass_inst"
  let inst : AssemblyInstance :=
    { name := assembly_instance_name
      master_assembly := t.master_assembly_name
      xform_seq := seq }
  ({ t with
      base := { t.base with xform_seq := seq }
      ass_inst := some assembly_instance_name },
    assembly.insertInstance inst)

/-- `InstanceTranslator.update(obj)` (lines 114-115): rewrite the time-0.0
transform of the flushed assembly instance through the stored handle.
Before `flush_entities` the handle attribute is absent, so the access raises
AttributeError and neither the translator nor the assembly changes. -/
def InstanceTranslator.update (convert : Mat4 → Mat4) (t : InstanceTranslator)
    (obj : BlObj) (assembly : Assembly) : Except PyErr Assembly :=
  match t.ass_inst with
  | none => .error .attributeError
  | some n => .ok (assembly.setInstanceTransform n 0 (convert obj.matrix_world))

/-- `ArchiveTranslator` state: the inherited `ObjectTranslator`, the archive
path, the translator's `appleseed_name`, and the private `__ass_inst`
handle created by its `flush_entities`; the handle is absent (`none`) before
the flush. -/
structure ArchiveTranslator where
  base : ObjectTranslator
  archive_path : String
  appleseed_name : String
  ass_inst : Option AssemblyInstance
deriving DecidableEq

/-- A fresh `ArchiveTranslator` (`__init__`, lines 143-146). -/
def ArchiveTranslator.init (obj : BlObj) (archive_path appleseed_name : String) :
    ArchiveTranslator :=
  { base := ObjectTranslator.init obj
    archive_path := archive_path
    appleseed_name := appleseed_name
    ass_inst := none }

/-- `ArchiveTranslator.update(obj)` (lines 172-173): write through the
locally held assembly-instance handle; before `flush_entities` the attribute
is absent and the access raises AttributeError. -/
def ArchiveTranslator.update (convert : Mat4 → Mat4) (t : ArchiveTranslator)
    (obj : BlObj) : Except PyErr ArchiveTranslator :=
  match t.ass_inst with
  | none => .error .attributeError
  | some inst =>
      let inst2 : AssemblyInstance :=
        { inst with xform_seq := inst.xform_seq.set_transform 0 (convert obj.matrix_world) }
      .ok { t with ass_inst := some inst2 }

/- ------------------------------------------------------------------
   util.read_osl_shaders and its path helpers
   (src/util.py lines 64-90 and 125-215).
   ------------------------------------------------------------------ -/

/-- A metadata or parameter value surfaced by the shader query binding. -/
inductive PVal
  | str (s : String)
  | num (q : ℚ)
deriving DecidableEq

/-- Python `value == 0.0` on a query value: numeric comparison for numbers,
`False` for strings. -/
def PVal.isZero : PVal → Bool
  | .num q => q == 0
  | .str _ => false

/-- Lookup in a string-keyed Python dictionary (`'k' in d` / `d['k']`). -/
def dictGet (d : List (String × PVal)) (k : String) : Option PVal :=
  (d.find? (fun e => e.1 == k)).map (fun e => e.2)

/-- One parameter record of the external `asr.ShaderQuery`
(`q.get_param_info(x)`): the fields the source reads, with `metadata`
flattened to a map from metadata key to its `'value'` entry. -/
structure ParamInfo where
  name : String
  ptype : String
  validdefault : Bool
  isoutput : Bool
  default : Option PVal
  metadata : List (String × PVal)
deriving DecidableEq

/-- The external `asr.ShaderQuery` results for one `.oso` file: the shader
metadata (flattened to key, `'value'` pairs), the shader name, and the
parameter records. -/
structure ShaderData where
  meta : List (String × PVal)
  shader_name : String
  params : List ParamInfo
deriving DecidableEq

/-- The `param_data` dictionary assembled for one parameter
(lines 178-204). -/
structure ParamData where
  name : String
  ptype : String
  connectable : Bool
  hide_ui : Bool
  default : Option PVal
  label : Option PVal
  widget : Option PVal
  minv : Option PVal
  maxv : Option PVal
  softmin : Option PVal
  softmax : Option PVal
  help : Option PVal
  options : Option (List String)
deriving DecidableEq

/-- Assemble `param_data` for one parameter.  The `options` branch calls
string methods on the metadata value; a non-string value there would raise
AttributeError in Python. -/
def buildParamData (param : ParamInfo) : Except PyErr ParamData :=
  let metadata := param.metadata
  let widget := dictGet metadata "widget"
  let hide_ui0 := param.validdefault = false
  let hide_ui := if widget = some (PVal.str "null") then true else hide_ui0
  let connectable :=
    match dictGet metadata "as_blender_input_socket" with
    | some v => !v.isZero
    | none => true
  let options :=
    match dictGet metadata "options" with
    | some (PVal.str s) =>
        Except.ok (some (((((s.splitOn " = ").getLastD "").replace "\"" "").splitOn "|")))
    | some _ => Except.error PyErr.attributeError
    | none => Except.ok none
  match options with
  | .error e => .error e
  | .ok opts =>
      .ok
        { name := param.name
          ptype := param.ptype
          connectable := connectable
          hide_ui := hide_ui
          default := param.default
          label := dictGet metadata "label"
          widget := widget
          minv := dictGet metadata "min"
          maxv := dictGet metadata "max"
          softmin := dictGet metadata "softmin"
          softmax := dictGet metadata "softmax"
          help := dictGet metadata "help"
          options := opts }

/-- One node dictionary of the shader list (lines 153-211). -/
structure OslNode where
  name : PVal
  filename : String
  category : PVal
  inputs : List ParamData
  outputs : List ParamData
deriving DecidableEq

/-- The parameter loop (lines 170-209): build each `param_data` and append
it to the outputs or inputs of the node. -/
def buildParams : List ParamInfo → List ParamData → List ParamData →
    Except PyErr (List ParamData × List ParamData)
  | [], ins, outs => .ok (ins, outs)
  | p :: ps, ins, outs =>
      match buildParamData p with
      | .error e => .error e
      | .ok pd =>
          if p.isoutput then buildParams ps ins (outs ++ [pd])
          else buildParams ps (ins ++ [pd]) outs

/-- Assemble the node dictionary for one opened `.oso` file. -/
def buildNode (file : String) (d : ShaderData) : Except PyErr OslNode :=
  let name :=
    match dictGet d.meta "as_blender_node_name" with
    | some v => v
    | none => PVal.str d.shader_name
  let category :=
    match dictGet d.meta "as_blender_category" with
    | some v => v
    | none => PVal.str "other"
  match buildParams d.params [] [] with
  | .error e => .error e
  | .ok (ins, outs) =>
      .ok
        { name := name
          filename := file.replace ".oso" ""
          category := category
          inputs := ins
          outputs := outs }

/-- The environment read by the OSL scan: the addon preference
`appleseed_binary_directory`, path resolution (`util.realpath`, yielding the
resolved path as a component list), directory listing and testing, and the
external shader query keyed by the opened file path. -/
structure OslEnv where
  appleseed_binary_directory : String
  realpath : String → List String
  listdir : List String → List String
  isdir : List String → Bool
  query : List String → ShaderData

/-- `util.get_appleseed_bin_dir` (lines 64-68): the preference, resolved
through `realpath` when truthy; the empty (falsy) preference is returned
unresolved, modelled as the empty component list. -/
def get_appleseed_bin_dir (env : OslEnv) : List String :=
  if env.appleseed_binary_directory ≠ "" then
    env.realpath env.appleseed_binary_directory
  else []

/-- The `while os.path.basename(dir) != 'bin'` ascent shared by
`get_osl_search_paths` and `get_appleseed_parent_dir`: strip trailing path
components until the last one is `bin`, then drop it.  `none` models the
non-terminating Python loop that arises when no `bin` component is found
(`os.path.dirname` fixes the empty path). -/
def ascendToBinParent : List String → Option (List String)
  | [] => none
  | p :: ps =>
      if (p :: ps).getLast (by simp) = "bin" then some ((p :: ps).dropLast)
      else ascendToBinParent ((p :: ps).dropLast)
termination_by l => l.length
decreasing_by
  simp only [List.length_dropLast, List.length_cons]
  omega

/-- `util.get_osl_search_paths` (lines 71-81): the tool directory and the
two shader directories derived from the resolved binary directory. -/
def get_osl_search_paths (env : OslEnv) : Option (List String × List (List String)) :=
  match ascendToBinParent (get_appleseed_bin_dir env) with
  | none => none
  | some parent =>
      some (parent ++ ["bin"],
        [parent ++ ["shaders", "appleseed"], parent ++ ["shaders", "blenderseed"]])

/-- The warning logged when the binary directory preference is unset. -/
def warnMissingBinDir : String :=
  "[appleseed] WARNING: Path to appleseed binary directory not set: rendering and OSL features will not be available."

/-- The inner file loop of `read_osl_shaders` for one shader directory
(lines 150-211): for every listed file ending in `.oso`, open it through
the query (recorded in the second component) and assemble its node. -/
def scanFiles (env : OslEnv) (shader_dir : List String) :
    List String → Except PyErr (List OslNode) × List (List String)
  | [] => (.ok [], [])
  | file :: files =>
      if file.endsWith ".oso" then
        let filename := shader_dir ++ [file]
        match buildNode file (env.query filename) with
        | .error e => (.error e, [filename])
        | .ok node =>
            match scanFiles env shader_dir files with
            | (.ok nodes, opened) => (.ok (node :: nodes), filename :: opened)
            | (.error e, opened) => (.error e, filename :: opened)
      else scanFiles env shader_dir files

/-- The directory loop of `read_osl_shaders` (lines 147-148): scan each
existing shader directory in order. -/
def scanDirs (env : OslEnv) :
    List (List String) → Except PyErr (List OslNode) × List (List String)
  | [] => (.ok [], [])
  | dir :: dirs =>
      if env.isdir dir then
        match scanFiles env dir (env.listdir dir) with
        | (.ok nodes, opened) =>
            match scanDirs env dirs with
            | (.ok nodes', opened') => (.ok (nodes ++ nodes'), opened ++ opened')
            | (.error e, opened') => (.error e, opened ++ opened')
        | (.error e, opened) => (.error e, opened)
      else scanDirs env dirs

/-- `util.read_osl_shaders` (lines 125-215): with an unset (falsy) binary
directory preference, log the warning and return the empty node list without
touching any shader file; otherwise derive the search paths and scan them.
The result carries the node list (or the escaped Python exception), the
`.oso` files opened through `q.open`, and the warnings logged; `none` models
the non-terminating directory ascent. -/
def read_osl_shaders (env : OslEnv) :
    Option (Except PyErr (List OslNode) × List (List String) × List String) :=
  if (get_appleseed_bin_dir env).isEmpty then
    some (.ok [], [], [warnMissingBinDir])
  else
    match get_osl_search_paths env with
    | none => none
    | some paths =>
        let scanned := scanDirs env paths.2
        some (scanned.1, scanned.2, [])

/- ------------------------------------------------------------------
   Concrete host data for the closed evaluations below.
   ------------------------------------------------------------------ -/

/-- A host state sitting at frame 1, subframe 0, with no dupli-list. -/
def w0 : World := ⟨1, 0, [], []⟩

/-- A concrete instanced object with unit scale. -/
def bobj0 : BObject := ⟨⟨1, 1, 1⟩⟩

/-- The identity matrix. -/
def idMat : Mat4 := Mat4.Translation ⟨0, 0, 0⟩

/-- A concrete dupli entry. -/
def dupli0 : Dupli := ⟨bobj0, idMat⟩

/-- A concrete particle slot: always alive, unit size, at the origin. -/
def slot0 : ParticleSlot := ⟨0, fun _ _ => true, fun _ _ => 1, fun _ _ => ⟨0, 0, 0⟩⟩

/-- An emitter particle system with one particle, rendered as objects. -/
def psysE : ParticleSystem := ⟨.emitter, "OBJECT", [slot0]⟩

/-- An emitter particle system with no particles. -/
def psysEmpty : ParticleSystem := ⟨.emitter, "OBJECT", []⟩

/-- A visible particle-system modifier carrying `psysE`. -/
def modE : Modifier := ⟨"PARTICLE_SYSTEM", true, psysE⟩

/-- Per-object appleseed settings with object motion blur enabled. -/
def mblurFlags : ObAppleseed := ⟨true, "object"⟩

/-- Per-object appleseed settings with motion blur disabled. -/
def staticFlags : ObAppleseed := ⟨false, "object"⟩

/-- A motion-blurred host object with one emitter system and a constant
one-entry dupli-list. -/
def obE : HostObject := ⟨mblurFlags, true, [modE], fun _ _ _ => [dupli0]⟩

/-- The same host object with motion blur disabled. -/
def obEStatic : HostObject := ⟨staticFlags, true, [modE], fun _ _ _ => [dupli0]⟩

/-- A motion-blurred host object whose dupli-list is non-empty at subframe 0
and empty at every other subframe. -/
def obUneven : HostObject :=
  ⟨mblurFlags, true, [modE], fun _ _ sub => if sub = 0 then [dupli0] else []⟩

/-- A scene with motion blur on and coinciding shutter subframes. -/
def sceneEq : Scene := ⟨⟨true, true, false, 0, 0⟩⟩

/-- A scene with motion blur on and distinct shutter subframes. -/
def sceneNe : Scene := ⟨⟨true, true, false, 0, 2⟩⟩

/-- The emitter matrix of `slot0` instanced on `bobj0`. -/
def matE : Mat4 := emitterParticleMatrix ⟨0, 0, 0⟩ ⟨1, 1, 1⟩ 1

/-- The dictionary produced for `obE` under `sceneNe` (two shutter samples). -/
def dictW : List DictEntry := [(slot0, bobj0, [matE, matE])]

/-- The dictionary produced for `obEStatic` (one sample). -/
def dictWStatic : List DictEntry := [(slot0, bobj0, [matE])]

/-- A concrete hair particle slot with a distinct id. -/
def slotH : ParticleSlot := ⟨1, fun _ _ => true, fun _ _ => 1, fun _ _ => ⟨0, 0, 0⟩⟩

/-- A hair/path particle system with one particle, rendered as objects. -/
def psysH : ParticleSystem := ⟨.hair, "OBJECT", [slotH]⟩

/-- A visible particle-system modifier carrying `psysH`. -/
def modH : Modifier := ⟨"PARTICLE_SYSTEM", true, psysH⟩

/-- A static host object carrying both an emitter and a hair particle
system, with a two-entry dupli-list (one dupli per particle). -/
def obMixed : HostObject :=
  ⟨staticFlags, true, [modE, modH], fun _ _ _ => [dupli0, dupli0]⟩

/-- The dictionary produced for `obMixed`: the emitter entry carries the
computed emitter matrix, the hair entry the host-supplied dupli matrix. -/
def dictWMixed : List DictEntry :=
  [(slot0, bobj0, [matE]), (slotH, bobj0, [idMat])]

/-- The matrix-list lengths of the records of a `sample_mblur` result
(`none` for an escaped exception). -/
def mblurEntryLens (r : Except PyErr (List (BObject × List Mat4)) × World) :
    Option (List ℕ) :=
  match r.1 with
  | .ok ms => some (ms.map (fun e => e.2.length))
  | .error _ => none

/-- The matrix-list lengths of the dictionary entries of a
`sample_psys_mblur` result (`none` unless a pair was returned). -/
def psysEntryLens (r : Except PyErr PsysSample × World) : Option (List ℕ) :=
  match r.1 with
  | .ok (.pair d _) => some (d.map (fun e => e.2.2.length))
  | _ => none

/-- Discriminator for `PsysSample`: `true` exactly on `(dupli_dict, index)`
pairs, `false` on the bare Python value `False`. -/
def PsysSample.isPair : PsysSample → Bool
  | .falseValue => false
  | .pair _ _ => true

/-- The expected `get_instances` outcome for `obEStatic` from `w0`. -/
def instStaticRes : Except PyErr (List (BObject × InstMats)) × World :=
  (.ok [(bobj0, .one idMat)],
    ⟨1, 0, [], [.dupliCreate .default 1 0, .dupliClear]⟩)

/-- The expected `get_instances` outcome for `obE` under `sceneNe` from
`w0`. -/
def instMblurRes : Except PyErr (List (BObject × InstMats)) × World :=
  (.ok [(bobj0, .many [idMat, idMat])],
    ⟨1, 0, [],
      [.frameSetEvt 1 0, .dupliCreate .default 1 0, .dupliClear,
       .frameSetEvt 1 2, .dupliCreate .default 1 2, .dupliClear,
       .frameSetEvt 1 0]⟩)

/-- An OSL environment whose binary-directory preference is unset. -/
def envUnset : OslEnv :=
  ⟨"", fun _ => [], fun _ => [], fun _ => false, fun _ => ⟨[], "", []⟩⟩

/-- A concrete translator host object. -/
def blObj0 : BlObj := ⟨idMat⟩

/-- An empty renderer assembly. -/
def asm0 : Assembly := ⟨[]⟩

/-- A freshly constructed `ObjectTranslator`. -/
def trObj0 : ObjectTranslator := ObjectTranslator.init blObj0

/-- A freshly constructed `InstanceTranslator` (no `flush_entities` yet). -/
def trInst0 : InstanceTranslator := InstanceTranslator.init blObj0 "master" "obj"

/-- A freshly constructed `ArchiveTranslator` (no `flush_entities` yet). -/
def trArch0 : ArchiveTranslator := ArchiveTranslator.init blObj0 "arch.appleseedz" "obj"

/- ------------------------------------------------------------------
   Theorems: util.filter_params.
   ------------------------------------------------------------------ -/

theorem dedupKeepFirst_cons {α : Type} [DecidableEq α] (p : α) (ps : List α) :
    dedupKeepFirst (p :: ps) = p :: dedupKeepFirst (ps.filter (fun q => q ≠ p)) := by
  rw [dedupKeepFirst]

theorem mem_dedupKeepFirst {α : Type} [DecidableEq α] (a : α) :
    ∀ l : List α, a ∈ dedupKeepFirst l ↔ a ∈ l
  | [] => by simp [dedupKeepFirst]
  | p :: ps => by
      rw [dedupKeepFirst_cons]
      by_cases hap : a = p
      · simp [hap]
      · simp only [List.mem_cons, hap, false_or]
        rw [mem_dedupKeepFirst a (ps.filter (fun q => q ≠ p))]
        simp [List.mem_filter, hap]
termination_by l => l.length
decreasing_by
  simp only [List.length_cons]
  exact Nat.lt_succ_of_le (List.length_filter_le _ _)

theorem nodup_dedupKeepFirst {α : Type} [DecidableEq α] :
    ∀ l : List α, (dedupKeepFirst l).Nodup
  | [] => by simp [dedupKeepFirst]
  | p :: ps => by
      rw [dedupKeepFirst_cons]
      refine List.nodup_cons.mpr ⟨?_, nodup_dedupKeepFirst (ps.filter (fun q => q ≠ p))⟩
      intro hmem
      rw [mem_dedupKeepFirst] at hmem
      simp [List.mem_filter] at hmem
termination_by l => l.length
decreasing_by
  simp only [List.length_cons]
  exact Nat.lt_succ_of_le (List.length_filter_le _ _)

theorem dedupKeepFirst_of_nodup {α : Type} [DecidableEq α] :
    ∀ l : List α, l.Nodup → dedupKeepFirst l = l
  | [], _ => by simp [dedupKeepFirst]
  | p :: ps, h => by
      rw [dedupKeepFirst_cons]
      rcases List.nodup_cons.mp h with ⟨hp, hps⟩
      have hfilter : ps.filter (fun q => q ≠ p) = ps := by
        apply List.filter_eq_self.mpr
        intro a ha
        simp only [decide_eq_true_eq]
        intro hEq
        exact hp (hEq ▸ ha)
      rw [hfilter, dedupKeepFirst_of_nodup ps hps]
termination_by l => l.length
decreasing_by
  simp only [List.length_cons]
  exact Nat.lt_succ_self _

theorem filterParamsLoop_eq {α : Type} [DecidableEq α] :
    ∀ (l acc : List α), filterParamsLoop acc l =
      acc ++ dedupKeepFirst (l.filter (fun x => x ∉ acc))
  | [], acc => by simp [filterParamsLoop, dedupKeepFirst]
  | p :: ps, acc => by
      by_cases hp : p ∈ acc
      · rw [filterParamsLoop, if_pos hp, filterParamsLoop_eq ps acc,
          List.filter_cons_of_neg (by simpa using hp)]
      · rw [filterParamsLoop, if_neg hp, filterParamsLoop_eq ps (acc ++ [p]),
          List.filter_cons_of_pos (by simpa using hp), dedupKeepFirst_cons]
        have hf : ps.filter (fun x => x ∉ acc ++ [p]) =
            (ps.filter (fun x => x ∉ acc)).filter (fun q => q ≠ p) := by
          rw [List.filter_filter]
          apply List.filter_congr
          intro x _
          by_cases h1 : x ∈ acc <;> by_cases h2 : x = p <;>
            simp [h1, h2, List.mem_append]
        rw [hf, List.append_assoc]
        rfl

/-- C10: `filter_params` returns its input with duplicates removed keeping
the first occurrence of each element in input order (it coincides with the
reference function `dedupKeepFirst`); consequently its output has no
duplicates and it is idempotent. -/
theorem filter_params_spec {α : Type} [DecidableEq α] (params : List α) :
    filter_params params = dedupKeepFirst params ∧
    (filter_params params).Nodup ∧
    filter_params (filter_params params) = filter_params params := by
  have hbase : ∀ l : List α, filter_params l = dedupKeepFirst l := by
    intro l
    rw [filter_params, filterParamsLoop_eq, List.nil_append]
    congr 1
    apply List.filter_eq_self.mpr
    intro a _
    simp
  refine ⟨hbase params, ?_, ?_⟩
  · rw [hbase]; exact nodup_dedupKeepFirst params
  · rw [hbase, hbase]
    exact dedupKeepFirst_of_nodup _ (nodup_dedupKeepFirst params)

/- ------------------------------------------------------------------
   Theorems: util.calc_fov.
   ------------------------------------------------------------------ -/

/-- C5: `calc_fov` applies the tangent-half-angle correction only when the
rendered width is strictly less than the rendered height; for every camera
angle and every width at least the height it returns the camera angle
converted to degrees unchanged — in particular the result for equal width
and height is the uncorrected angle in degrees. -/
theorem calc_fov_correction_only_when_narrow (angle : ℝ) (width height : ℤ) :
    (height ≤ width → calc_fov angle width height = degrees angle) ∧
    (width < height → calc_fov angle width height =
      degrees (2 * Real.arctan
        (18 * (width : ℝ) / (height : ℝ) / (18 / Real.tan (angle / 2))))) := by
  constructor
  · intro h
    rw [calc_fov, if_neg (not_lt.mpr h)]
  · intro h
    rw [calc_fov, if_pos h]

/-- Closed instance of C5: at equal width and height (5 x 5) the result is
the uncorrected angle in degrees. -/
theorem calc_fov_correction_only_when_narrow_witness :
    (5 : ℤ) ≤ (5 : ℤ) ∧ calc_fov 1 5 5 = degrees 1 :=
  ⟨by norm_num, (calc_fov_correction_only_when_narrow 1 5 5).1 (by norm_num)⟩

/- ------------------------------------------------------------------
   Theorems: util.read_osl_shaders.
   ------------------------------------------------------------------ -/

/-- C7: with an unset (falsy) appleseed binary directory preference,
`read_osl_shaders` returns the empty node list after logging the warning,
and opens no shader file. -/
theorem read_osl_shaders_unset_pref (env : OslEnv)
    (h : env.appleseed_binary_directory = "") :
    read_osl_shaders env = some (.ok [], [], [warnMissingBinDir]) := by
  have hdir : get_appleseed_bin_dir env = [] := by
    rw [get_appleseed_bin_dir, if_neg (by simp [h])]
  rw [read_osl_shaders, hdir]
  rfl

/-- Closed instance of C7 at a concrete environment. -/
theorem read_osl_shaders_unset_pref_witness :
    envUnset.appleseed_binary_directory = "" ∧
    read_osl_shaders envUnset = some (.ok [], [], [warnMissingBinDir]) :=
  ⟨rfl, read_osl_shaders_unset_pref envUnset rfl⟩

/- ------------------------------------------------------------------
   Theorems: translators/object.py.
   ------------------------------------------------------------------ -/

/-- C8: `set_transform_key` stores exactly one sample — the given time with
the host object's converted world matrix — in the translator's own transform
sequence, and mutates nothing else: the host-object reference and the
instance count are unchanged, and the function reads and writes no state
outside the translator (it is a pure function of the translator alone).
When no sample at that time exists yet, the sequence is extended by exactly
that one sample. -/
theorem set_transform_key_spec (convert : Mat4 → Mat4) (t : ObjectTranslator)
    (time : ℚ) (key_times : List ℚ) :
    (ObjectTranslator.set_transform_key convert t time key_times).bl_obj = t.bl_obj ∧
    (ObjectTranslator.set_transform_key convert t time key_times).num_instances =
      t.num_instances ∧
    (ObjectTranslator.set_transform_key convert t time key_times).xform_seq =
      t.xform_seq.set_transform time (convert t.bl_obj.matrix_world) ∧
    (t.xform_seq.samples.any (fun p => p.1 == time) = false →
      (ObjectTranslator.set_transform_key convert t time key_times).xform_seq.samples =
        t.xform_seq.samples ++ [(time, convert t.bl_obj.matrix_world)]) := by
  refine ⟨rfl, rfl, rfl, ?_⟩
  intro h
  rw [ObjectTranslator.set_transform_key]
  show (t.xform_seq.set_transform time (convert t.bl_obj.matrix_world)).samples = _
  rw [TransformSequence.set_transform, if_neg (by simp [h])]

/-- Closed instance of C8: on a fresh translator, keying time 0 appends the
single converted sample. -/
theorem set_transform_key_spec_witness :
    trObj0.xform_seq.samples.any (fun p => p.1 == 0) = false ∧
    (ObjectTranslator.set_transform_key id trObj0 0 []).xform_seq.samples =
      trObj0.xform_seq.samples ++ [(0, id trObj0.bl_obj.matrix_world)] :=
  ⟨rfl, (set_transform_key_spec id trObj0 0 []).2.2.2 rfl⟩

/-- C2 counterexample: on a freshly constructed `InstanceTranslator` (no
`flush_entities` yet) `update` raises AttributeError — the call does not
return normally, so it does not fail silently. -/
theorem update_before_flush_counterexample :
    InstanceTranslator.update id trInst0 blObj0 asm0 =
      Except.error PyErr.attributeError := by
  rfl

/-- C2 (amended): calling `InstanceTranslator.update` or
`ArchiveTranslator.update` before `flush_entities` raises an (unhandled)
AttributeError — the handle attribute does not exist yet — and leaves the
translator and the renderer assembly unchanged (the exception escapes before
any mutation; the returned value carries no updated assembly). -/
theorem update_before_flush_raises (convert : Mat4 → Mat4)
    (t : InstanceTranslator) (t2 : ArchiveTranslator) (obj : BlObj)
    (assembly : Assembly) (h : t.ass_inst = none) (h2 : t2.ass_inst = none) :
    InstanceTranslator.update convert t obj assembly = .error .attributeError ∧
    ArchiveTranslator.update convert t2 obj = .error .attributeError := by
  constructor
  · rw [InstanceTranslator.update, h]
  · rw [ArchiveTranslator.update, h2]

/-- Closed instance of the amended C2 at fresh translators. -/
theorem update_before_flush_raises_witness :
    trInst0.ass_inst = none ∧ trArch0.ass_inst = none ∧
    InstanceTranslator.update id trInst0 blObj0 asm0 = .error .attributeError ∧
    ArchiveTranslator.update id trArch0 blObj0 = .error .attributeError :=
  ⟨rfl, rfl,
    (update_before_flush_raises id trInst0 trArch0 blObj0 asm0 rfl rfl).1,
    (update_before_flush_raises id trInst0 trArch0 blObj0 asm0 rfl rfl).2⟩

/- ------------------------------------------------------------------
   Projection lemmas for the world primitives.
   ------------------------------------------------------------------ -/

@[simp] theorem frameSet_frame_current (w : World) (f : ℤ) (s : ℚ) :
    (frameSet w f s).frame_current = f := rfl

@[simp] theorem frameSet_frame_subframe (w : World) (f : ℤ) (s : ℚ) :
    (frameSet w f s).frame_subframe = s := rfl

@[simp] theorem frameSet_dupli_list (w : World) (f : ℤ) (s : ℚ) :
    (frameSet w f s).dupli_list = w.dupli_list := rfl

@[simp] theorem frameSet_trace (w : World) (f : ℤ) (s : ℚ) :
    (frameSet w f s).trace = w.trace ++ [Event.frameSetEvt f s] := rfl

@[simp] theorem dupliListCreate_frame_current (ob : HostObject) (s : DupliSettings) (w : World) :
    (dupliListCreate ob s w).frame_current = w.frame_current := rfl

@[simp] theorem dupliListCreate_frame_subframe (ob : HostObject) (s : DupliSettings) (w : World) :
    (dupliListCreate ob s w).frame_subframe = w.frame_subframe := rfl

@[simp] theorem dupliListCreate_dupli_list (ob : HostObject) (s : DupliSettings) (w : World) :
    (dupliListCreate ob s w).dupli_list = ob.dupli_gen s w.frame_current w.frame_subframe := rfl

@[simp] theorem dupliListCreate_trace (ob : HostObject) (s : DupliSettings) (w : World) :
    (dupliListCreate ob s w).trace =
      w.trace ++ [Event.dupliCreate s w.frame_current w.frame_subframe] := rfl

@[simp] theorem dupliListClear_frame_current (w : World) :
    (dupliListClear w).frame_current = w.frame_current := rfl

@[simp] theorem dupliListClear_frame_subframe (w : World) :
    (dupliListClear w).frame_subframe = w.frame_subframe := rfl

@[simp] theorem dupliListClear_dupli_list (w : World) :
    (dupliListClear w).dupli_list = [] := rfl

@[simp] theorem dupliListClear_trace (w : World) :
    (dupliListClear w).trace = w.trace ++ [Event.dupliClear] := rfl

/- ------------------------------------------------------------------
   Theorems: frame restoration (C3).
   ------------------------------------------------------------------ -/

theorem mblurEmitterFrames_frame_current (fo : ℤ) :
    ∀ (frames : List ℚ) (d : List DictEntry) (w : World),
      w.frame_current = fo → (mblurEmitterFrames fo frames d w).2.frame_current = fo
  | [], _, _, h => h
  | _ :: fs, d, w, _ =>
      mblurEmitterFrames_frame_current fo fs (mblurEmitterPass d fo _) (frameSet w fo _) rfl

theorem mblurHairFrames_frame_current (ob : HostObject) (fo : ℤ) (idx : ℕ) :
    ∀ (frames : List ℚ) (d : List DictEntry) (w : World),
      w.frame_current = fo →
      (mblurHairFrames ob fo idx frames d w).2.frame_current = fo
  | [], _, _, h => h
  | f :: fs, d, w, _ => by
      rw [mblurHairFrames]
      cases hp : mblurHairPass (dupliListCreate ob .render (frameSet w fo f)).dupli_list d idx with
      | error e => simp
      | ok d2 =>
          exact mblurHairFrames_frame_current ob fo idx fs d2
            (dupliListClear (dupliListCreate ob .render (frameSet w fo f))) rfl

/-- C3: after any call to `sample_mblur` or `sample_psys_mblur` returns —
for every object, scene, particle system and counters, including the
empty-particle early return of `sample_psys_mblur` and the paths on which a
Python exception escapes — the scene's current frame equals the frame that
was current before the call. -/
theorem samplers_restore_frame_current (ob : HostObject) (scene : Scene)
    (psys : ParticleSystem) (index start current_total : ℕ) (w : World) :
    (sample_mblur ob scene w).2.frame_current = w.frame_current ∧
    (sample_psys_mblur ob scene psys index start current_total w).2.frame_current =
      w.frame_current := by
  constructor
  · rw [sample_mblur]
    dsimp only
    split
    · simp
    · simp
  · rw [sample_psys_mblur]
    dsimp only
    split
    · simp
    · split
      · simp
      · split
        · simp
        · rename_i duplis heq
          split
          · rename_i d2 w4 hfr
            have := mblurHairFrames_frame_current ob w.frame_current index
              (shutterFrames scene.appleseed.shutter_open scene.appleseed.shutter_close)
              (dictOfPairs (((collectParticles psys w.frame_current
                scene.appleseed.shutter_open).zip duplis).map
                  (fun p => (p.1, p.2, ([] : List Mat4)))))
              (dupliListClear (dupliListCreate ob .render
                (frameSet w w.frame_current scene.appleseed.shutter_open))) rfl
            rw [hfr] at this
            exact this
          · simp

/- ------------------------------------------------------------------
   Theorems: the False / pair dichotomy of sample_psys_mblur (C9).
   ------------------------------------------------------------------ -/

/-- C9: `sample_psys_mblur` returns the bare value `False` exactly when the
particle list collected at the shutter-open subframe is empty, and whenever
that list is non-empty every normally returned value is a
`(dupli_dict, index)` pair — so the tuple unpacking in its caller
`get_psys_instances` can only succeed under the non-empty precondition. -/
theorem sample_psys_mblur_false_or_pair (ob : HostObject) (scene : Scene)
    (psys : ParticleSystem) (index start current_total : ℕ) (w : World) :
    (collectParticles psys w.frame_current scene.appleseed.shutter_open = [] →
      (sample_psys_mblur ob scene psys index start current_total w).1 =
        .ok .falseValue) ∧
    (collectParticles psys w.frame_current scene.appleseed.shutter_open ≠ [] →
      ∀ r, (sample_psys_mblur ob scene psys index start current_total w).1 = .ok r →
        r.isPair = true) := by
  constructor
  · intro h
    rw [sample_psys_mblur]
    dsimp only
    rw [if_pos (by simp [h])]
  · intro h r
    rw [sample_psys_mblur]
    dsimp only
    rw [if_neg (by simp [h])]
    split
    · intro hr
      cases hr
      rfl
    · split
      · intro hr
        cases hr
      · split
        · intro hr
          cases hr
        · intro hr
          cases hr
          rfl

/-- Closed instance of C9: the bare `False` on an empty emitter system, and
a pair on a system with one live particle. -/
theorem sample_psys_mblur_false_or_pair_witness :
    collectParticles psysEmpty w0.frame_current sceneEq.appleseed.shutter_open = [] ∧
    (sample_psys_mblur obE sceneEq psysEmpty 0 0 0 w0).1 = .ok .falseValue ∧
    (PsysSample.pair dictW 1).isPair = true :=
  ⟨rfl,
    (sample_psys_mblur_false_or_pair obE sceneEq psysEmpty 0 0 0 w0).1 rfl,
    (sample_psys_mblur_false_or_pair obE sceneNe psysE 0 0 1 w0).2
      (by intro hx; exact List.noConfusion hx) (PsysSample.pair dictW 1) (by rfl)⟩

/- ------------------------------------------------------------------
   Theorems: get_instances (C4).
   ------------------------------------------------------------------ -/

theorem mblurAppendClose_eq_zipWith :
    ∀ (ms : List (BObject × List Mat4)) (ds : List Dupli), ms.length = ds.length →
      mblurAppendClose ms ds =
        .ok (List.zipWith (fun p d => (p.1, p.2 ++ [d.matrix])) ms ds)
  | ms, [], h => by
      have hnil : ms = [] := List.length_eq_zero.mp (by simpa using h)
      subst hnil
      simp [mblurAppendClose]
  | [], d :: ds, h => by simp at h
  | (obj, mats) :: ms, d :: ds, h => by
      have ih := mblurAppendClose_eq_zipWith ms ds (by simpa using h)
      simp [mblurAppendClose, ih]

theorem zipWith_open_close :
    ∀ (dlo dlc : List Dupli),
      List.zipWith (fun (p : BObject × List Mat4) d => (p.1, p.2 ++ [d.matrix]))
        (dlo.map (fun du => (du.object, [du.matrix]))) dlc =
      List.zipWith (fun a b => (a.object, [a.matrix, b.matrix])) dlo dlc
  | [], _ => rfl
  | _ :: _, [] => rfl
  | a :: dlo, b :: dlc => by
      simp [zipWith_open_close dlo dlc]

theorem sample_mblur_eq_of_len (ob : HostObject) (scene : Scene) (w : World)
    (h : (ob.dupli_gen .default w.frame_current scene.appleseed.shutter_open).length =
         (ob.dupli_gen .default w.frame_current scene.appleseed.shutter_close).length) :
    sample_mblur ob scene w =
      (.ok (List.zipWith (fun a b => (a.object, [a.matrix, b.matrix]))
          (ob.dupli_gen .default w.frame_current scene.appleseed.shutter_open)
          (ob.dupli_gen .default w.frame_current scene.appleseed.shutter_close)),
        { w with
            dupli_list := []
            frame_subframe := 0
            trace := w.trace ++
              [Event.frameSetEvt w.frame_current scene.appleseed.shutter_open,
               Event.dupliCreate .default w.frame_current scene.appleseed.shutter_open,
               Event.dupliClear,
               Event.frameSetEvt w.frame_current scene.appleseed.shutter_close,
               Event.dupliCreate .default w.frame_current scene.appleseed.shutter_close,
               Event.dupliClear,
               Event.frameSetEvt w.frame_current 0] }) := by
  have hlen2 : ((ob.dupli_gen .default w.frame_current scene.appleseed.shutter_open).map
      (fun dupli => (dupli.object, [dupli.matrix]))).length =
      ((dupliListCreate ob .default (frameSet
        (dupliListClear (dupliListCreate ob .default
          (frameSet w w.frame_current scene.appleseed.shutter_open)))
        w.frame_current scene.appleseed.shutter_close)).dupli_list).length := by
    simpa using h
  rw [sample_mblur]
  dsimp only
  rw [show ((dupliListCreate ob .default (frameSet w w.frame_current
      scene.appleseed.shutter_open)).dupli_list).map
        (fun dupli => (dupli.object, [dupli.matrix])) =
      (ob.dupli_gen .default w.frame_current scene.appleseed.shutter_open).map
        (fun dupli => (dupli.object, [dupli.matrix])) from by simp]
  rw [mblurAppendClose_eq_zipWith _ _ hlen2]
  dsimp only
  rw [show (dupliListCreate ob .default (frameSet
      (dupliListClear (dupliListCreate ob .default
        (frameSet w w.frame_current scene.appleseed.shutter_open)))
      w.frame_current scene.appleseed.shutter_close)).dupli_list =
      ob.dupli_gen .default w.frame_current scene.appleseed.shutter_close from by simp]
  rw [zipWith_open_close]
  refine Prod.ext rfl ?_
  simp [frameSet, dupliListCreate, dupliListClear]

/-- C4 counterexample: with motion blur enabled, `get_instances` on a host
that yields one dupli at the shutter-open subframe and none at shutter-close
returns a record carrying only the shutter-open matrix — not the claimed
`[matrix-open, matrix-close]` pair. -/
theorem get_instances_mblur_counterexample :
    ob_mblur_enabled obUneven sceneNe = true ∧
    (get_instances obUneven sceneNe w0).1 = .ok [(bobj0, InstMats.many [idMat])] :=
  ⟨rfl, by rfl⟩

/-- C4 (amended): `get_instances` with motion blur disabled creates the host
dupli-list exactly once (one create event, then one clear) and returns one
`[dupli.object, matrix]` pair per dupli, the matrix being the value the host
produced before the list was cleared; with motion blur enabled it creates
the dupli-list exactly twice — at the shutter-open and shutter-close
subframes — and, provided the host yields equally many duplis at both
subframes, returns `[dupli.object, [matrix-open, matrix-close]]` records
(with fewer duplis at shutter-close, trailing records keep only the open
matrix; with more, the code raises IndexError). -/
theorem get_instances_spec (ob : HostObject) (scene : Scene) (w : World) :
    (ob_mblur_enabled ob scene = false →
      get_instances ob scene w =
        (.ok ((ob.dupli_gen .default w.frame_current w.frame_subframe).map
            (fun d => (d.object, InstMats.one d.matrix))),
          { w with
              dupli_list := []
              trace := w.trace ++
                [Event.dupliCreate .default w.frame_current w.frame_subframe,
                 Event.dupliClear] })) ∧
    (ob_mblur_enabled ob scene = true →
      (ob.dupli_gen .default w.frame_current scene.appleseed.shutter_open).length =
        (ob.dupli_gen .default w.frame_current scene.appleseed.shutter_close).length →
      get_instances ob scene w =
        (.ok (List.zipWith
            (fun a b => (a.object, InstMats.many [a.matrix, b.matrix]))
            (ob.dupli_gen .default w.frame_current scene.appleseed.shutter_open)
            (ob.dupli_gen .default w.frame_current scene.appleseed.shutter_close)),
          { w with
              dupli_list := []
              frame_subframe := 0
              trace := w.trace ++
                [Event.frameSetEvt w.frame_current scene.appleseed.shutter_open,
                 Event.dupliCreate .default w.frame_current scene.appleseed.shutter_open,
                 Event.dupliClear,
                 Event.frameSetEvt w.frame_current scene.appleseed.shutter_close,
                 Event.dupliCreate .default w.frame_current scene.appleseed.shutter_close,
                 Event.dupliClear,
                 Event.frameSetEvt w.frame_current 0] })) := by
  constructor
  · intro h
    rw [get_instances, if_neg (by simp [h])]
    dsimp only
    apply Prod.ext <;> simp [frameSet, dupliListCreate, dupliListClear]
  · intro h hlen
    rw [get_instances, if_pos (by simp [h]), sample_mblur_eq_of_len ob scene w hlen]
    dsimp only
    refine Prod.ext ?_ rfl
    rw [List.map_zipWith]

/-- Closed instance of C4: one create/clear pair and bare matrices without
motion blur; two shutter-subframe creates and two-sample records with it. -/
theorem get_instances_spec_witness :
    ob_mblur_enabled obEStatic sceneNe = false ∧
    get_instances obEStatic sceneNe w0 = instStaticRes ∧
    ob_mblur_enabled obE sceneNe = true ∧
    get_instances obE sceneNe w0 = instMblurRes :=
  ⟨rfl,
    ((get_instances_spec obEStatic sceneNe w0).1 rfl).trans (by rfl),
    rfl,
    ((get_instances_spec obE sceneNe w0).2 rfl rfl).trans (by rfl)⟩

/- ------------------------------------------------------------------
   Dictionary membership lemmas.
   ------------------------------------------------------------------ -/

theorem mem_dictSet {d : List DictEntry} {k : ParticleSlot} {v : BObject × List Mat4}
    {e : DictEntry} (h : e ∈ dictSet d k v) : e ∈ d ∨ e = (k, v) := by
  rw [dictSet] at h
  split at h
  · rcases List.mem_map.mp h with ⟨x, hx, hxe⟩
    by_cases hc : (x.1.id == k.id) = true
    · right
      rw [← hxe, if_pos hc]
    · left
      rw [← hxe, if_neg hc]
      exact hx
  · rcases List.mem_append.mp h with h1 | h2
    · exact .inl h1
    · right
      simpa using h2

theorem mem_foldl_dictSet :
    ∀ (ps acc : List DictEntry) (e : DictEntry),
      e ∈ ps.foldl (fun d p => dictSet d p.1 p.2) acc → e ∈ acc ∨ e ∈ ps
  | [], _, _, h => .inl h
  | p :: ps, acc, e, h => by
      rcases mem_foldl_dictSet ps (dictSet acc p.1 p.2) e h with h1 | h2
      · rcases mem_dictSet h1 with ha | hb
        · exact .inl ha
        · refine .inr ?_
          rw [hb]
          exact List.mem_cons_self _ _
      · exact .inr (List.mem_cons_of_mem _ h2)

theorem mem_dictOfPairs {ps : List DictEntry} {e : DictEntry}
    (h : e ∈ dictOfPairs ps) : e ∈ ps := by
  rw [dictOfPairs] at h
  rcases mem_foldl_dictSet ps [] e h with h1 | h2
  · simp at h1
  · exact h2

theorem mem_dictUpdate {base d : List DictEntry} {e : DictEntry}
    (h : e ∈ dictUpdate base d) : e ∈ base ∨ e ∈ d := by
  rw [dictUpdate] at h
  exact mem_foldl_dictSet d base e h

/- ------------------------------------------------------------------
   Entry shapes of the static per-psys dictionaries.
   ------------------------------------------------------------------ -/

theorem staticEmitterDict_entry (particles : List ParticleSlot)
    (duplis : List BObject) (f : ℤ) (s : ℚ) :
    ∀ e ∈ staticEmitterDict particles duplis f s,
      e.2.2 = [emitterParticleMatrix (e.1.locationAt f s) e.2.1.scale (e.1.sizeAt f s)] := by
  intro e he
  rw [staticEmitterDict] at he
  rcases List.mem_map.mp he with ⟨x, hx, hxe⟩
  have hx2 := mem_dictOfPairs hx
  rcases List.mem_map.mp hx2 with ⟨p, _, hpx⟩
  rw [← hxe, ← hpx]
  rfl

theorem staticHairDict_entry (particles : List ParticleSlot)
    (duplis : List BObject) (dupli_mat_list : List Mat4) :
    ∀ e ∈ staticHairDict particles duplis dupli_mat_list, e.2.2.length = 1 := by
  intro e he
  rw [staticHairDict] at he
  have hx := mem_dictOfPairs he
  rcases List.mem_map.mp hx with ⟨p, _, hpx⟩
  rw [← hpx]
  rfl

theorem staticHairDict_key (particles : List ParticleSlot)
    (duplis : List BObject) (dupli_mat_list : List Mat4) :
    ∀ e ∈ staticHairDict particles duplis dupli_mat_list, e.1 ∈ particles := by
  intro e he
  rw [staticHairDict] at he
  rcases List.mem_map.mp (mem_dictOfPairs he) with ⟨p, hp, hpx⟩
  rcases p with ⟨⟨ps, bo⟩, mt⟩
  rw [← hpx]
  exact (List.of_mem_zip (List.of_mem_zip hp).1).1

theorem collectParticles_hair (psys : ParticleSystem) (f : ℤ) (s : ℚ)
    (hpt : psys.ptype = PsysType.hair) :
    collectParticles psys f s = psys.particles := by
  rw [collectParticles, hpt]

/- ------------------------------------------------------------------
   The static-path invariant of the modifier loop.
   ------------------------------------------------------------------ -/

theorem processModifiers_static_inv (ob : HostObject) (scene : Scene)
    (P : DictEntry → Prop) (hmb : ob_mblur_enabled ob scene = false) :
    ∀ (ms : List Modifier) (acc : List DictEntry) (ct idx : ℕ) (w1 : World)
      (hacc : ∀ e ∈ acc, P e)
      (hE : ∀ m ∈ ms, m.particle_system.ptype = PsysType.emitter →
        ∀ particles duplis, ∀ e ∈ staticEmitterDict particles duplis
          w1.frame_current w1.frame_subframe, P e)
      (hH : ∀ m ∈ ms, m.particle_system.ptype = PsysType.hair →
        ∀ duplis, ∀ e ∈ staticHairDict
          (collectParticles m.particle_system w1.frame_current w1.frame_subframe)
          duplis (w1.dupli_list.map (fun dupli => dupli.matrix)), P e)
      (d : List DictEntry) (w2 : World),
      processModifiers ob scene ms acc ct idx w1 = (.ok d, w2) → ∀ e ∈ d, P e
  | [], acc, ct, idx, w1, hacc, _, _, d, w2, h => by
      rw [processModifiers] at h
      cases h
      exact hacc
  | m :: ms, acc, ct, idx, w1, hacc, hE, hH, d, w2, h => by
      rw [processModifiers] at h
      by_cases h1 : (m.mtype == "PARTICLE_SYSTEM" && m.show_render) = true
      · rw [if_pos h1] at h
        by_cases h2 : (m.particle_system.render_type == "OBJECT" ||
            m.particle_system.render_type == "GROUP") = true
        · rw [if_pos h2] at h
          dsimp only at h
          rw [if_neg (by simp [hmb])] at h
          split at h
          · cases h
          · rename_i duplis heq
            cases hpt : m.particle_system.ptype with
            | emitter =>
                rw [hpt] at h
                dsimp only at h
                refine processModifiers_static_inv ob scene P hmb ms _ _ _ w1
                  ?_ (fun x hx => hE x (List.mem_cons_of_mem _ hx))
                  (fun x hx => hH x (List.mem_cons_of_mem _ hx)) d w2 h
                intro e he
                rcases mem_dictUpdate he with ha | hb
                · exact hacc e ha
                · exact hE m (List.mem_cons_self _ _) hpt _ _ e hb
            | hair =>
                rw [hpt] at h
                dsimp only at h
                refine processModifiers_static_inv ob scene P hmb ms _ _ _ w1
                  ?_ (fun x hx => hE x (List.mem_cons_of_mem _ hx))
                  (fun x hx => hH x (List.mem_cons_of_mem _ hx)) d w2 h
                intro e he
                rcases mem_dictUpdate he with ha | hb
                · exact hacc e ha
                · exact hH m (List.mem_cons_self _ _) hpt _ e hb
        · rw [if_neg h2] at h
          exact processModifiers_static_inv ob scene P hmb ms acc ct idx w1 hacc
            (fun x hx => hE x (List.mem_cons_of_mem _ hx))
            (fun x hx => hH x (List.mem_cons_of_mem _ hx)) d w2 h
      · rw [if_neg h1] at h
        exact processModifiers_static_inv ob scene P hmb ms acc ct idx w1 hacc
          (fun x hx => hE x (List.mem_cons_of_mem _ hx))
          (fun x hx => hH x (List.mem_cons_of_mem _ hx)) d w2 h

/- ------------------------------------------------------------------
   Theorems: emitter matrices of the static path (C6).
   ------------------------------------------------------------------ -/

/-- C6: for every emitter-type particle processed without motion blur by
`get_psys_instances` — every entry of the returned dictionary whose key
particle does not belong to a rendered hair/path system of the object, which
covers the emitter particles of objects that also carry hair systems — the
single stored matrix is the translation by the particle's location
multiplied by the product of the axis-aligned scale matrices whose factors
are the instanced object's per-axis scale times the particle's size
(`emitterParticleMatrix`), evaluated at the scene's current time. -/
theorem get_psys_instances_emitter_matrices (ob : HostObject) (scene : Scene)
    (w : World) (d : List DictEntry)
    (hmb : ob_mblur_enabled ob scene = false)
    (h : (get_psys_instances ob scene w).1 = .ok d) :
    ∀ e ∈ d,
      (∀ m ∈ ob.modifiers, m.particle_system.ptype = PsysType.hair →
        e.1 ∉ m.particle_system.particles) →
      e.2.2 =
        [emitterParticleMatrix (e.1.locationAt w.frame_current w.frame_subframe)
          e.2.1.scale (e.1.sizeAt w.frame_current w.frame_subframe)] := by
  rw [get_psys_instances] at h
  by_cases hm : ob.has_modifiers = true
  · rw [if_neg (by simp [hm])] at h
    dsimp only at h
    rw [if_neg (by simp [hmb])] at h
    rcases hres : processModifiers ob scene ob.modifiers [] 0 0
      (dupliListCreate ob .render w) with ⟨res, w2'⟩
    rw [hres] at h
    cases res with
    | error e => cases h
    | ok all1 =>
        dsimp only at h
        cases h
        refine processModifiers_static_inv ob scene _ hmb ob.modifiers [] 0 0
          (dupliListCreate ob .render w) (by intro e he; cases he) ?_ ?_ d w2' hres
        · intro m _ hpt particles duplis e he _
          exact staticEmitterDict_entry particles duplis _ _ e he
        · intro m hmem hpt duplis e he hne
          exfalso
          refine hne m hmem hpt ?_
          have hk := staticHairDict_key _ _ _ e he
          rwa [collectParticles_hair _ _ _ hpt] at hk
  · rw [if_pos (by simp [hm])] at h
    cases h
    intro e he
    cases he

/-- Closed instance of C6 on an object carrying both an emitter and a hair
particle system: the emitter entry of the mixed dictionary carries the
emitter matrix. -/
theorem get_psys_instances_emitter_matrices_witness :
    ob_mblur_enabled obMixed sceneNe = false ∧
    (get_psys_instances obMixed sceneNe w0).1 = .ok dictWMixed ∧
    (slot0, bobj0, ([matE] : List Mat4)).2.2 =
      [emitterParticleMatrix (slot0.locationAt w0.frame_current w0.frame_subframe)
        bobj0.scale (slot0.sizeAt w0.frame_current w0.frame_subframe)] :=
  ⟨rfl, by rfl,
    get_psys_instances_emitter_matrices obMixed sceneNe w0 dictWMixed rfl (by rfl)
      (slot0, bobj0, [matE]) (List.mem_cons_self _ _)
      (by
        intro m hm hpt
        simp only [obMixed, List.mem_cons, List.not_mem_nil, or_false] at hm
        rcases hm with hm | hm
        · subst hm
          exact absurd hpt (by decide)
        · subst hm
          intro hc
          rw [show modH.particle_system.particles = [slotH] from rfl,
            List.mem_singleton] at hc
          exact absurd (congrArg ParticleSlot.id hc) (by decide))⟩

/- ------------------------------------------------------------------
   Matrix-count lemmas for the motion-blur passes (C1).
   ------------------------------------------------------------------ -/

theorem shutterFrames_length_of_ne {a b : ℚ} (h : a ≠ b) :
    (shutterFrames a b).length = 2 := by
  rw [shutterFrames, if_neg h]
  rfl

theorem zipWith_pair_len :
    ∀ (dlo dlc : List Dupli) (e : BObject × List Mat4),
      e ∈ List.zipWith (fun a b => (a.object, [a.matrix, b.matrix])) dlo dlc →
      e.2.length = 2
  | [], _, _, he => by cases he
  | _ :: _, [], _, he => by cases he
  | a :: dlo, b :: dlc, e, he => by
      rw [List.zipWith_cons_cons] at he
      rcases List.mem_cons.mp he with he | he
      · rw [he]
        rfl
      · exact zipWith_pair_len dlo dlc e he

theorem mblurEmitterFrames_entry_lengths (fo : ℤ) :
    ∀ (frames : List ℚ) (d : List DictEntry) (w : World) (e : DictEntry),
      e ∈ (mblurEmitterFrames fo frames d w).1 →
      ∃ e0 ∈ d, e.2.2.length = e0.2.2.length + frames.length
  | [], d, w, e, he => ⟨e, he, rfl⟩
  | f :: fs, d, w, e, he => by
      rw [mblurEmitterFrames] at he
      rcases mblurEmitterFrames_entry_lengths fo fs (mblurEmitterPass d fo f)
        (frameSet w fo f) e he with ⟨e1, he1, hlen1⟩
      rw [mblurEmitterPass] at he1
      rcases List.mem_map.mp he1 with ⟨e0, he0, hee⟩
      refine ⟨e0, he0, ?_⟩
      have h1 : e1.2.2.length = e0.2.2.length + 1 := by
        rw [← hee]
        simp
      rw [hlen1, h1, List.length_cons]
      omega

theorem mblurHairPass_entry_lengths (dl : List Dupli) :
    ∀ (es : List DictEntry) (idx : ℕ) (r : List DictEntry),
      mblurHairPass dl es idx = .ok r →
      ∀ e ∈ r, ∃ e0 ∈ es, e.2.2.length = e0.2.2.length + 1
  | [], idx, r, h, e, he => by
      rw [mblurHairPass] at h
      cases h
      cases he
  | e1 :: es, idx, r, h, e, he => by
      rw [mblurHairPass] at h
      cases hdl : dl[idx]? with
      | none => rw [hdl] at h; cases h
      | some dup =>
          rw [hdl] at h
          cases hrec : mblurHairPass dl es (idx + 1) with
          | error err => rw [hrec] at h; cases h
          | ok rest =>
              rw [hrec] at h
              cases h
              rcases List.mem_cons.mp he with he | he
              · refine ⟨e1, List.mem_cons_self _ _, ?_⟩
                rw [he]
                simp
              · rcases mblurHairPass_entry_lengths dl es (idx + 1) rest hrec e he
                  with ⟨e0, he0, hl⟩
                exact ⟨e0, List.mem_cons_of_mem _ he0, hl⟩

theorem mblurHairFrames_entry_lengths (ob : HostObject) (fo : ℤ) (idx : ℕ) :
    ∀ (frames : List ℚ) (d : List DictEntry) (w : World) (r : List DictEntry)
      (w' : World),
      mblurHairFrames ob fo idx frames d w = (.ok r, w') →
      ∀ e ∈ r, ∃ e0 ∈ d, e.2.2.length = e0.2.2.length + frames.length
  | [], d, w, r, w', h, e, he => by
      rw [mblurHairFrames] at h
      cases h
      exact ⟨e, he, rfl⟩
  | f :: fs, d, w, r, w', h, e, he => by
      rw [mblurHairFrames] at h
      cases hp : mblurHairPass
          (dupliListCreate ob .render (frameSet w fo f)).dupli_list d idx with
      | error err => rw [hp] at h; cases h
      | ok d2 =>
          rw [hp] at h
          rcases mblurHairFrames_entry_lengths ob fo idx fs d2
            (dupliListClear (dupliListCreate ob .render (frameSet w fo f))) r w' h e he
            with ⟨e1, he1, hl1⟩
          rcases mblurHairPass_entry_lengths _ d idx d2 hp e1 he1 with ⟨e0, he0, hl0⟩
          refine ⟨e0, he0, ?_⟩
          rw [hl1, hl0, List.length_cons]
          omega

theorem dict0_entry_empty (particles : List ParticleSlot) (duplis : List BObject) :
    ∀ e ∈ dictOfPairs ((particles.zip duplis).map (fun p => (p.1, p.2, ([] : List Mat4)))),
      e.2.2 = [] := by
  intro e he
  rcases List.mem_map.mp (mem_dictOfPairs he) with ⟨p, _, hp⟩
  rw [← hp]

/- ------------------------------------------------------------------
   Theorems: matrix counts per instance record (C1).
   ------------------------------------------------------------------ -/

/-- C1 counterexample: with object motion blur enabled but
`shutter_open = shutter_close`, the particle entry produced by
`sample_psys_mblur` carries exactly one matrix (the Python set
`{shutter_open, shutter_close}` collapses to one pass), not two; and
`sample_mblur` likewise produces a one-matrix record when the host yields
fewer duplis at the shutter-close subframe than at shutter-open. -/
theorem instance_matrix_counts_counterexample :
    sceneEq.appleseed.shutter_open = sceneEq.appleseed.shutter_close ∧
    psysEntryLens (sample_psys_mblur obE sceneEq psysE 0 0 1 w0) = some [1] ∧
    mblurEntryLens (sample_mblur obUneven sceneNe w0) = some [1] :=
  ⟨rfl, by rfl, by rfl⟩

/-- C1 (amended): every motion-blur instance record carries one matrix per
shutter pass — exactly 2 for `sample_mblur` records when the host yields
equally many duplis at the two shutter subframes, and exactly 2 for
`sample_psys_mblur` dictionary entries when `shutter_open` and
`shutter_close` are distinct (with equal shutter subframes the Python set
iterated by `sample_psys_mblur` collapses and each entry carries exactly 1);
without motion blur every `get_psys_instances` entry carries exactly 1. -/
theorem instance_matrix_counts (ob : HostObject) (scene : Scene) (w : World) :
    (∀ ms, (sample_mblur ob scene w).1 = .ok ms →
      (ob.dupli_gen .default w.frame_current scene.appleseed.shutter_open).length =
        (ob.dupli_gen .default w.frame_current scene.appleseed.shutter_close).length →
      ∀ e ∈ ms, e.2.length = 2) ∧
    (∀ psys index start current_total d i,
      scene.appleseed.shutter_open ≠ scene.appleseed.shutter_close →
      (sample_psys_mblur ob scene psys index start current_total w).1 =
        .ok (.pair d i) →
      ∀ e ∈ d, e.2.2.length = 2) ∧
    (∀ d, ob_mblur_enabled ob scene = false →
      (get_psys_instances ob scene w).1 = .ok d →
      ∀ e ∈ d, e.2.2.length = 1) := by
  refine ⟨?_, ?_, ?_⟩
  · intro ms hok hlen e he
    have hchar := sample_mblur_eq_of_len ob scene w hlen
    rw [hchar] at hok
    cases hok
    exact zipWith_pair_len _ _ e he
  · intro psys index start current_total d i hne hok e he
    rw [sample_psys_mblur] at hok
    dsimp only at hok
    split at hok
    · simp at hok
    · split at hok
      · injection hok with hok
        injection hok with hd hi
        subst hd
        rcases mblurEmitterFrames_entry_lengths w.frame_current _ _ _ e he
          with ⟨e0, he0, hl⟩
        rw [dict0_entry_empty _ _ e0 he0] at hl
        rw [hl, shutterFrames_length_of_ne hne]
        rfl
      · split at hok
        · cases hok
        · split at hok
          · cases hok
          · rename_i d2 w4 hfr
            injection hok with hok
            injection hok with hd hi
            subst hd
            rcases mblurHairFrames_entry_lengths ob w.frame_current index _ _ _ _ _
              hfr e he with ⟨e0, he0, hl⟩
            rw [dict0_entry_empty _ _ e0 he0] at hl
            rw [hl, shutterFrames_length_of_ne hne]
            rfl
  · intro d hmb hok
    rw [get_psys_instances] at hok
    by_cases hm : ob.has_modifiers = true
    · rw [if_neg (by simp [hm])] at hok
      dsimp only at hok
      rw [if_neg (by simp [hmb])] at hok
      rcases hres : processModifiers ob scene ob.modifiers [] 0 0
        (dupliListCreate ob .render w) with ⟨res, w2'⟩
      rw [hres] at hok
      cases res with
      | error e => cases hok
      | ok all1 =>
          dsimp only at hok
          cases hok
          refine processModifiers_static_inv ob scene _ hmb ob.modifiers [] 0 0
            (dupliListCreate ob .render w) (by intro e he; cases he) ?_ ?_ d w2' hres
          · intro m _ hpt particles duplis e he
            rw [staticEmitterDict_entry particles duplis _ _ e he]
            rfl
          · intro m _ hpt duplis e he
            exact staticHairDict_entry _ duplis _ e he
    · rw [if_pos (by simp [hm])] at hok
      cases hok
      intro e he
      cases he

/-- Closed instance of the amended C1: two-sample records and entries under
distinct shutter subframes, a one-sample entry on the static path. -/
theorem instance_matrix_counts_witness :
    sceneNe.appleseed.shutter_open ≠ sceneNe.appleseed.shutter_close ∧
    (bobj0, ([idMat, idMat] : List Mat4)).2.length = 2 ∧
    (slot0, bobj0, ([matE, matE] : List Mat4)).2.2.length = 2 ∧
    (slot0, bobj0, ([matE] : List Mat4)).2.2.length = 1 :=
  ⟨by decide,
    (instance_matrix_counts obE sceneNe w0).1 [(bobj0, [idMat, idMat])] (by rfl) rfl
      (bobj0, [idMat, idMat]) (List.mem_singleton.mpr rfl),
    (instance_matrix_counts obE sceneNe w0).2.1 psysE 0 0 1 dictW 1 (by decide)
      (by rfl) (slot0, bobj0, [matE, matE]) (List.mem_singleton.mpr rfl),
    (instance_matrix_counts obEStatic sceneNe w0).2.2 dictWStatic rfl (by rfl)
      (slot0, bobj0, [matE]) (List.mem_singleton.mpr rfl)⟩

end Blenderseed
